import Mathlib

/-
A verification development for the buildpack lifecycle engine core of this
repository: the phase driver and exec mocking of the `buildpacktest` harness,
the nodejs legacy-worker buildpack (detect and build functions), and the
version-resolution, cache-check and environment-composition policies those
functions rely on.

Conventions of the shallow embedding:
  - a process environment snapshot is an ordered association list of
    variable names to values; lookup returns the first binding, mirroring
    os.LookupEnv, and getenv returns "" for an unset variable, mirroring
    os.Getenv;
  - filesystems are modelled as total functions from paths to optional file
    contents (none means the file does not exist / cannot be read);
  - fallible Go functions returning (T, error) become Except String T;
  - process side effects (exec, logging, layer clearing) become explicit
    actions accumulated in a trace.
-/

namespace Buildpacks

/-- Process environment snapshot: ordered association list of variable names
to values. -/
abbrev Env := List (String × String)

/-- Mirrors os.LookupEnv: the first binding for the name, if any. -/
def Env.lookupVar (e : Env) (k : String) : Option String :=
  List.lookup k e

/-- Mirrors os.Getenv: the value of the first binding, or the empty string
when the variable is unset. -/
def Env.getenv (e : Env) (k : String) : String :=
  (e.lookupVar k).getD ""

/-- Engines field of package.json, as decoded by the nodejs package
(fields engines.node and engines.npm). -/
structure PackageEnginesJSON where
  node : String
  npm : String
deriving DecidableEq

/-- Scripts field of package.json, as decoded by the nodejs package
(fields scripts.start and scripts.gcp-build). -/
structure PackageScriptsJSON where
  start : String
  gcpBuild : String
deriving DecidableEq

/-- Parsed package.json manifest, with the fields the nodejs package
decodes: main, engines, scripts, dependencies, devDependencies. -/
structure PackageJSON where
  main : String
  engines : PackageEnginesJSON
  scripts : PackageScriptsJSON
  dependencies : List (String × String)
  devDependencies : List (String × String)
deriving DecidableEq

/-- Modelled from the spec: the Version Resolution Policy instantiated for
Node.js (function RequestedNodejsVersion of pkg/nodejs, which is not under
src/; only its test TestRequestedNodejsVersion is). Precedence, strictly
descending: the language-specific override variable GOOGLE_NODEJS_VERSION,
then the generic override variable GOOGLE_RUNTIME_VERSION, then the
manifest's engines.node constraint, then the empty string; only the
highest-precedence non-empty source is used. -/
def RequestedNodejsVersion (env : Env) (pjs : Option PackageJSON) : String :=
  let nodeV := env.getenv "GOOGLE_NODEJS_VERSION"
  if nodeV ≠ "" then nodeV
  else
    let runtimeV := env.getenv "GOOGLE_RUNTIME_VERSION"
    if runtimeV ≠ "" then runtimeV
    else
      match pjs with
      | some p => p.engines.node
      | none => ""

/-- Modelled from the spec: ReadPackageJSONIfExists of pkg/nodejs (not under
src/; only its tests TestReadPackageJSONIfExists and
TestReadPackageJSONIfExistsDoesNotExist are). The directory is abstracted
as the optional parse outcome of its package.json file: none when no
package.json exists in the directory, some (Except.ok p) when it exists and
is well-formed, some (Except.error e) when it exists but fails to parse.
Per the spec the manifest is optional, so absence is a normal outcome, not
an error. -/
def ReadPackageJSONIfExists (dir : Option (Except String PackageJSON)) :
    Except String (Option PackageJSON) :=
  match dir with
  | none => Except.ok none
  | some (Except.ok p) => Except.ok (some p)
  | some (Except.error e) => Except.error e

/-- Kinds of environment-variable mutation operations recorded on a layer. -/
inductive EnvOpKind where
  | default
  | override
  | prepend
  | append
deriving DecidableEq

/-- One recorded environment operation: kind, variable name, separator
(meaningful for prepend/append only) and value. -/
structure EnvOp where
  kind : EnvOpKind
  name : String
  sep : String
  value : String
deriving DecidableEq

/-- Modelled from the spec: composition of a single environment operation
onto the current value of its variable (the Environment Composer of the
spec; the layer-environment implementation lives in the external libcnb
dependency, not under src/). none means the variable is currently unset.
Default sets the variable only if unset; Override replaces unconditionally;
Prepend and Append behave like Override when the variable is unset, and
otherwise join the new and existing values with the separator exactly once,
except that an existing empty value yields no dangling separator. -/
def applyEnvOp (kind : EnvOpKind) (sep value : String) (cur : Option String) :
    String :=
  match kind, cur with
  | EnvOpKind.default, none => value
  | EnvOpKind.default, some old => old
  | EnvOpKind.override, _ => value
  | EnvOpKind.prepend, none => value
  | EnvOpKind.prepend, some old => if old = "" then value else value ++ sep ++ old
  | EnvOpKind.append, none => value
  | EnvOpKind.append, some old => if old = "" then value else old ++ sep ++ value

/-- Sample manifest whose engines.node constraint is "2.2.2", used by the
concrete precedence scenarios of the spec. -/
def manifest222 : PackageJSON :=
  ⟨"", ⟨"2.2.2", ""⟩, ⟨"", ""⟩, [], []⟩

/-- C1: RequestedNodejsVersion returns GOOGLE_NODEJS_VERSION when non-empty,
otherwise GOOGLE_RUNTIME_VERSION when non-empty, otherwise the manifest's
engines.node constraint when a manifest is present, otherwise the empty
string; exactly one source is consulted (never merged), and the result is a
pure function of the two override variables and the manifest alone. -/
theorem requestedNodejsVersion_precedence (env : Env) (pjs : Option PackageJSON) :
    (env.getenv "GOOGLE_NODEJS_VERSION" ≠ "" →
      RequestedNodejsVersion env pjs = env.getenv "GOOGLE_NODEJS_VERSION") ∧
    (env.getenv "GOOGLE_NODEJS_VERSION" = "" →
      env.getenv "GOOGLE_RUNTIME_VERSION" ≠ "" →
      RequestedNodejsVersion env pjs = env.getenv "GOOGLE_RUNTIME_VERSION") ∧
    (env.getenv "GOOGLE_NODEJS_VERSION" = "" →
      env.getenv "GOOGLE_RUNTIME_VERSION" = "" →
      ∀ p, pjs = some p → RequestedNodejsVersion env pjs = p.engines.node) ∧
    (env.getenv "GOOGLE_NODEJS_VERSION" = "" →
      env.getenv "GOOGLE_RUNTIME_VERSION" = "" →
      pjs = none → RequestedNodejsVersion env pjs = "") ∧
    (∀ env' : Env,
      env'.getenv "GOOGLE_NODEJS_VERSION" = env.getenv "GOOGLE_NODEJS_VERSION" →
      env'.getenv "GOOGLE_RUNTIME_VERSION" = env.getenv "GOOGLE_RUNTIME_VERSION" →
      RequestedNodejsVersion env' pjs = RequestedNodejsVersion env pjs) := by
  refine ⟨?_, ?_, ?_, ?_, ?_⟩
  · intro h
    simp only [RequestedNodejsVersion, if_pos h]
  · intro h1 h2
    simp only [RequestedNodejsVersion, h1]
    simp [h2]
  · intro h1 h2 p hp
    subst hp
    simp [RequestedNodejsVersion, h1, h2]
  · intro h1 h2 hp
    subst hp
    simp [RequestedNodejsVersion, h1, h2]
  · intro env' hnode hruntime
    simp only [RequestedNodejsVersion, hnode, hruntime]

/-- Witness for C1, at the concrete scenario of the spec: manifest
constraint "2.2.2" together with generic override "3.3.3" resolves to
"3.3.3". -/
theorem requestedNodejsVersion_precedence_witness :
    RequestedNodejsVersion [("GOOGLE_RUNTIME_VERSION", "3.3.3")] (some manifest222) =
      Env.getenv [("GOOGLE_RUNTIME_VERSION", "3.3.3")] "GOOGLE_RUNTIME_VERSION" :=
  (requestedNodejsVersion_precedence [("GOOGLE_RUNTIME_VERSION", "3.3.3")]
    (some manifest222)).2.1 (by decide) (by decide)

/-- C10: reading the optional package.json of a directory that has none
yields no manifest and no error (absence is a normal outcome), while a
directory with a well-formed package.json yields the parsed manifest
(a non-nil pointer) and no error. -/
theorem readPackageJSONIfExists_absent_and_present :
    (ReadPackageJSONIfExists none = Except.ok none) ∧
    (∀ p : PackageJSON,
      ReadPackageJSONIfExists (some (Except.ok p)) = Except.ok (some p) ∧
      (some p : Option PackageJSON) ≠ none) := by
  refine ⟨rfl, ?_⟩
  intro p
  exact ⟨rfl, by simp⟩

/-- C6 counterexample: the claim says Prepend on a variable that currently
has a value O always yields value ++ sep ++ O, but on an existing empty
value the composition drops the separator: Prepend(PATH, ":", "/new") on
the existing value "" yields "/new", not "/new:". -/
theorem prepend_empty_existing_counterexample :
    applyEnvOp EnvOpKind.prepend ":" "/new" (some "") = "/new" ∧
    applyEnvOp EnvOpKind.prepend ":" "/new" (some "") ≠ "/new" ++ ":" ++ "" := by
  refine ⟨rfl, ?_⟩
  intro h
  exact absurd h (by decide)

/-- C6 (amended): for every separator S, value N and current value O,
Prepend on a variable whose current value O is non-empty yields
N ++ S ++ O with the separator occurring exactly once between them;
Prepend on a variable set to the empty string yields exactly N with no
trailing separator; and Prepend on an unset variable yields exactly N
with no leading separator (it behaves like Override). -/
theorem prepend_spec (S N O : String) :
    (O ≠ "" → applyEnvOp EnvOpKind.prepend S N (some O) = N ++ S ++ O) ∧
    applyEnvOp EnvOpKind.prepend S N (some "") = N ∧
    applyEnvOp EnvOpKind.prepend S N none = N ∧
    applyEnvOp EnvOpKind.prepend S N none = applyEnvOp EnvOpKind.override S N none := by
  refine ⟨?_, rfl, rfl, rfl⟩
  intro h
  simp [applyEnvOp, h]

/-- Witness for C6 (amended), at the concrete scenario of the spec:
Prepend("PATH", ":", "/new") on existing value "/old" yields "/new:/old";
on the existing empty value it yields "/new"; on an unset variable it
yields "/new". -/
theorem prepend_spec_witness :
    applyEnvOp EnvOpKind.prepend ":" "/new" (some "/old") = "/new" ++ ":" ++ "/old" ∧
    applyEnvOp EnvOpKind.prepend ":" "/new" (some "") = "/new" ∧
    applyEnvOp EnvOpKind.prepend ":" "/new" none = "/new" ∧
    applyEnvOp EnvOpKind.prepend ":" "/new" none =
      applyEnvOp EnvOpKind.override ":" "/new" none :=
  ⟨(prepend_spec ":" "/new" "/old").1 (by decide),
   (prepend_spec ":" "/new" "/old").2.1,
   (prepend_spec ":" "/new" "/old").2.2.1,
   (prepend_spec ":" "/new" "/old").2.2.2⟩

/-- Scripted behavior of a mocked command: stdout, stderr and exit code
(buildpacktestenv.MockProcess). -/
structure MockProcess where
  stdout : String
  stderr : String
  exitCode : Nat
deriving DecidableEq

/-- WithExecMock (src part_001) registers a mock for a command pattern in
the test configuration's mock table; registering a pattern that is already
present replaces its scripted result, otherwise the entry is added. -/
def WithExecMock (commandRegex : String) (mp : MockProcess) :
    List (String × MockProcess) → List (String × MockProcess)
  | [] => [(commandRegex, mp)]
  | (k, v) :: rest =>
      if k = commandRegex then (commandRegex, mp) :: rest
      else (k, v) :: WithExecMock commandRegex mp rest

/-- Outcome of dispatching one command through the Exec wrapper under the
test harness: spawn the real process, return a scripted mock result, or
fail as a test configuration error. -/
inductive ExecBehavior where
  | real (cmdline : String)
  | mocked (mp : MockProcess)
  | configError (cmdline : String)
deriving DecidableEq

/-- Exec dispatch under the test harness. The activation gate is the one in
src part_001 runBuildpackPhase: the mock exec command is installed exactly
when the mock table is non-empty. The matcher itself
(buildpacktestenv.NewMockExecCmd and the mockprocess binary) is not under
src/ and is modelled from the spec: each registered command-pattern is
matched against the full command line, the first registered pattern that
matches governs the scripted result, and an unmatched command line under
active mocking is a test configuration error, never a silent pass-through
to a real process. The parameter decides whether a pattern matches a
command line (regular-expression matching in the real harness). -/
def execWithMocks (matchesPat : String → String → Bool)
    (table : List (String × MockProcess)) (cmdline : String) : ExecBehavior :=
  if table.isEmpty then ExecBehavior.real cmdline
  else
    match table.find? (fun q => matchesPat q.1 cmdline) with
    | some q => ExecBehavior.mocked q.2
    | none => ExecBehavior.configError cmdline

/-- C3: with at least one mock registered, the Exec wrapper never spawns a
real process; when some registered pattern matches the command line the
result is exactly the scripted stdout/stderr/exit code of the first
matching pattern; and when no registered pattern matches, the invocation is
a test configuration error rather than a pass-through. -/
theorem execWithMocks_spec (matchesPat : String → String → Bool)
    (table : List (String × MockProcess)) (cmdline : String)
    (hne : table ≠ []) :
    (∀ c, execWithMocks matchesPat table cmdline ≠ ExecBehavior.real c) ∧
    (∀ t1 pat mp t2,
      table = t1 ++ (pat, mp) :: t2 →
      matchesPat pat cmdline = true →
      (∀ q ∈ t1, matchesPat q.1 cmdline = false) →
      execWithMocks matchesPat table cmdline = ExecBehavior.mocked mp) ∧
    ((∀ q ∈ table, matchesPat q.1 cmdline = false) →
      execWithMocks matchesPat table cmdline = ExecBehavior.configError cmdline) := by
  have hempty : table.isEmpty = false := by
    cases table with
    | nil => exact absurd rfl hne
    | cons a t => rfl
  refine ⟨?_, ?_, ?_⟩
  · intro c
    simp only [execWithMocks, hempty]
    cases hfind : table.find? (fun q => matchesPat q.1 cmdline) with
    | none => simp
    | some q => simp
  · intro t1 pat mp t2 htab hmatch hnone
    subst htab
    have h1 : t1.find? (fun q => matchesPat q.1 cmdline) = none := by
      rw [List.find?_eq_none]
      intro x hx
      simp [hnone x hx]
    have h2 : ((pat, mp) :: t2).find? (fun q => matchesPat q.1 cmdline) =
        some (pat, mp) :=
      List.find?_cons_of_pos t2 (by simpa using hmatch)
    simp only [execWithMocks, hempty]
    rw [List.find?_append, h1, h2]
    rfl
  · intro hnone
    have h1 : table.find? (fun q => matchesPat q.1 cmdline) = none := by
      rw [List.find?_eq_none]
      intro x hx
      simp [hnone x hx]
    simp [execWithMocks, hempty, h1]

/-- Witness for C3: a one-entry table built by WithExecMock, under a
substring matcher, returns the scripted result for a matching command line,
is a configuration error for a non-matching one, and never runs a real
process. -/
theorem execWithMocks_spec_witness :
    execWithMocks (fun pat cmd => pat.data.isPrefixOf cmd.data)
      (WithExecMock "npm install" ⟨"ok", "", 0⟩ [])
      "npm install --quiet" = ExecBehavior.mocked ⟨"ok", "", 0⟩ :=
  (execWithMocks_spec (fun pat cmd => pat.data.isPrefixOf cmd.data)
      (WithExecMock "npm install" ⟨"ok", "", 0⟩ []) "npm install --quiet"
      (by decide)).2.1
    [] "npm install" ⟨"ok", "", 0⟩ [] rfl (by decide) (by intro q hq; cases hq)

/-- Outcome of running a caller-supplied detect function: a detect result
with pass flag and human-readable reason, or an error. -/
inductive DetectFnOutcome where
  | result (pass : Bool) (reason : String)
  | err (msg : String)
deriving DecidableEq

/-- Exit code and combined captured output of one phase child process. -/
structure PhaseRun where
  exitCode : Nat
  output : String
deriving DecidableEq

/-- Detect branch of runBuildpackPhase (src part_001): a detect-function
error is wrapped as "detect error: ..." and returned as the phase error; a
result that does not pass yields no error and false; a passing result
yields true. The second component is the output the gcpbuildpack layer logs
for the detect result; that layer is not under src/ and is modelled from
the spec: the human-readable reason of the detect result appears in the
logged output. -/
def runBuildpackPhaseDetect (d : DetectFnOutcome) : Except String Bool × String :=
  match d with
  | DetectFnOutcome.err msg => (Except.error ("detect error: " ++ msg), "")
  | DetectFnOutcome.result pass reason => (Except.ok pass, reason)

/-- Child-process main for a detect phase (runBuildpackPhaseMain of src
part_001): a phase error is fatal — log.Fatalf prints "buildpack error: ..."
and the process exits with code 1; a non-passing detect result exits with
the libcnb no-match code 100; otherwise the child exits 0. -/
def runBuildpackPhaseMainDetect (d : DetectFnOutcome) : PhaseRun :=
  match runBuildpackPhaseDetect d with
  | (Except.error msg, out) => ⟨1, out ++ "buildpack error: " ++ msg⟩
  | (Except.ok true, out) => ⟨0, out⟩
  | (Except.ok false, out) => ⟨100, out⟩

/-- C2: the detect phase driver exits 0 when the detect function passes;
exits with the dedicated no-match code 100 when it does not pass, with the
human-readable reason contained in the captured output; and exits with a
generic error code that is neither 0 nor 100 when the detect function
returns an error. -/
theorem runBuildpackPhaseMainDetect_exit_codes (d : DetectFnOutcome) :
    (∀ reason, d = DetectFnOutcome.result true reason →
      (runBuildpackPhaseMainDetect d).exitCode = 0) ∧
    (∀ reason, d = DetectFnOutcome.result false reason →
      (runBuildpackPhaseMainDetect d).exitCode = 100 ∧
      reason.data <:+: (runBuildpackPhaseMainDetect d).output.data) ∧
    (∀ msg, d = DetectFnOutcome.err msg →
      (runBuildpackPhaseMainDetect d).exitCode ≠ 0 ∧
      (runBuildpackPhaseMainDetect d).exitCode ≠ 100) := by
  refine ⟨?_, ?_, ?_⟩
  · intro reason h
    subst h
    rfl
  · intro reason h
    subst h
    exact ⟨rfl, List.infix_refl _⟩
  · intro msg h
    subst h
    exact ⟨show (1 : Nat) ≠ 0 by decide, show (1 : Nat) ≠ 100 by decide⟩

/-- detectFn of the legacy-worker buildpack (src main.go): opt in when
GOOGLE_FUNCTION_TARGET is set in the environment — even to the empty
string — and opt out with a human-readable reason otherwise. The reason
strings of OptInEnvSet / OptOutEnvNotSet (pkg/gcpbuildpack, not under src/)
are modelled from the spec as naming the environment variable. -/
def detectFn (env : Env) : DetectFnOutcome :=
  match env.lookupVar "GOOGLE_FUNCTION_TARGET" with
  | some _ => DetectFnOutcome.result true "GOOGLE_FUNCTION_TARGET env var is set"
  | none => DetectFnOutcome.result false "GOOGLE_FUNCTION_TARGET env var is not set"

/-- Witness for C2: running the legacy-worker detect function in an empty
environment opts out, so the phase exits with code 100 and the reason is in
the captured output. -/
theorem runBuildpackPhaseMainDetect_exit_codes_witness :
    (runBuildpackPhaseMainDetect (detectFn [])).exitCode = 100 ∧
    ("GOOGLE_FUNCTION_TARGET env var is not set").data <:+:
      (runBuildpackPhaseMainDetect (detectFn [])).output.data :=
  (runBuildpackPhaseMainDetect_exit_codes (detectFn [])).2.1
    "GOOGLE_FUNCTION_TARGET env var is not set" rfl

/-- Deterministic cache signature: the ordered token list and the ordered
list of file contents it was computed from. Two signatures are equal iff
every token and every file content is identical and in the same order. -/
structure CacheSignature where
  tokens : List String
  fileContents : List String
deriving DecidableEq

/-- Reads every listed file in order from the filesystem; a missing or
unreadable file is an error naming the file. -/
def readFiles (fs : String → Option String) : List String → Except String (List String)
  | [] => Except.ok []
  | f :: rest =>
      match fs f with
      | none => Except.error ("reading " ++ f)
      | some c =>
          match readFiles fs rest with
          | Except.error e => Except.error e
          | Except.ok cs => Except.ok (c :: cs)

/-- Modelled from the spec: cache signature computation (pkg/cache and
nodejs.CheckCache are not under src/): a fresh CacheSignature over the
given tokens (order-sensitive) and the full contents of the listed files
(order-sensitive); a missing or unreadable listed file is an error, not an
automatic miss. -/
def computeSignature (fs : String → Option String) (tokens files : List String) :
    Except String CacheSignature :=
  match readFiles fs files with
  | Except.error e => Except.error e
  | Except.ok cs => Except.ok ⟨tokens, cs⟩

/-- Modelled from the spec: CheckCache compares the freshly computed
signature against the signature stored in the layer's previous-build
metadata; no previous metadata is a miss; any read error is propagated to
the caller as an error value and reports neither a hit nor a miss. The
freshly computed signature accompanies the verdict, recorded in the layer
metadata to be persisted at the end of the build. -/
def CheckCache (stored : Option CacheSignature) (tokens files : List String)
    (fs : String → Option String) : Except String (Bool × CacheSignature) :=
  match computeSignature fs tokens files with
  | Except.error e => Except.error e
  | Except.ok sig => Except.ok (decide (stored = some sig), sig)

/-- Attribution of a command executed through the Exec wrapper, as used by
the legacy-worker buildpack. -/
inductive Attribution where
  | user
  | userTiming
deriving DecidableEq

/-- Observable side effects of the build function, accumulated in order. -/
inductive Action where
  | logAction (msg : String)
  | exec (cmd : List String) (attr : Attribution)
  | cacheHitAction (layer : String)
  | cacheMissAction (layer : String)
  | clearLayerAction
deriving DecidableEq

/-- State of the legacy-worker layer: its directory contents (file name to
file content) and its metadata cache signature. -/
structure LayerState where
  contents : List (String × String)
  meta : Option CacheSignature
deriving DecidableEq

/-- Path of the converter's package.json within the buildpack root
(src main.go installLegacyWorker). -/
def converterPjsPath (bpRoot : String) : String :=
  bpRoot ++ "/converter/worker/package.json"

/-- Path of the converter's worker.js within the buildpack root
(src main.go installLegacyWorker). -/
def converterWjsPath (bpRoot : String) : String :=
  bpRoot ++ "/converter/worker/worker.js"

/-- Token hashed into the legacy-worker cache signature
(nodejs.EnvProduction). -/
def envProduction : String := "NODE_ENV=production"

/-- installLegacyWorker (src main.go): logs, then checks the layer cache
over the NODE_ENV=production token and the converter's package.json and
worker.js files; a cache-check error is wrapped as "checking cache: ..."
and returned; on a hit the layer is reported as a cache hit and its
contents are left untouched; on a miss the npm install command is resolved
first (nodejs.NPMInstallCommand is not under src/, so its outcome is an
input), then the miss is reported, the layer directory is cleared, the two
converter files are copied into the layer and npm installs the worker's
dependencies there. The returned layer metadata holds the freshly computed
signature, persisted at the end of the build. -/
def installLegacyWorker (bpRoot : String) (bpFS : String → Option String)
    (prior : LayerState) (lPath : String) (npmInstallCmd : Except String String) :
    Except String LayerState × List Action :=
  let logA := Action.logAction "Configuring the legacy Google Cloud Functions worker.js."
  let pjs := converterPjsPath bpRoot
  let wjs := converterWjsPath bpRoot
  match CheckCache prior.meta [envProduction] [pjs, wjs] bpFS with
  | Except.error e => (Except.error ("checking cache: " ++ e), [logA])
  | Except.ok (true, sig) =>
      (Except.ok ⟨prior.contents, some sig⟩,
       [logA, Action.cacheHitAction "legacy-worker"])
  | Except.ok (false, sig) =>
      match npmInstallCmd with
      | Except.error e => (Except.error e, [logA])
      | Except.ok installCmd =>
          (Except.ok ⟨[(lPath ++ "/package.json", (bpFS pjs).getD ""),
                       (lPath ++ "/worker.js", (bpFS wjs).getD "")], some sig⟩,
           [logA, Action.cacheMissAction "legacy-worker", Action.clearLayerAction,
            Action.exec ["cp", "-t", lPath, pjs, wjs] Attribution.userTiming,
            Action.exec ["npm", installCmd, "--quiet", "--production", "--prefix", lPath]
              Attribution.user])

deriving instance DecidableEq for Except

/-- Application source directory: the set of files that exist in the
application root, and the parse outcome of its package.json, consulted only
when "package.json" is among the files. -/
structure AppFS where
  files : List String
  pjsParse : Except String PackageJSON
deriving DecidableEq

/-- Mirrors ctx.FileExists relative to the application root. -/
def AppFS.fileExists (a : AppFS) (f : String) : Bool :=
  a.files.contains f

/-- Outcome of the build function: a returned error (user-attributable or
not), an explicit ctx.Exit unwind with an exit code and an internal-error
message, or success carrying the final layer state, the recorded
launch-scope environment operations and the web process. -/
inductive BuildResult where
  | err (userError : Bool) (msg : String)
  | exit (code : Nat) (internalMsg : String)
  | ok (layer : LayerState) (launchEnv : List EnvOp) (webProcess : List String)
deriving DecidableEq

/-- Entry-file resolution of buildFn (src main.go): function.js by default,
index.js when it exists, and the manifest's main field when package.json
exists and main is non-empty; a manifest read error is propagated. -/
def resolveFnFile (app : AppFS) : Except String String :=
  let fnFile := if app.fileExists "index.js" then "index.js" else "function.js"
  if app.fileExists "package.json" then
    match app.pjsParse with
    | Except.error e => Except.error e
    | Except.ok p => Except.ok (if p.main ≠ "" then p.main else fnFile)
  else Except.ok fnFile

/-- buildFn of the legacy-worker buildpack (src main.go): rejects
GOOGLE_FUNCTION_SOURCE with a user error; resolves the function entry file
and fails with the user error "<file> does not exist" when it is missing;
syntax-checks it with node --check under user attribution; installs the
legacy worker into the layer; prepends the application's node_modules to
NODE_PATH when present; then either records the launch-environment defaults
and the web process, or — when os.Getenv(GOOGLE_FUNCTION_TARGET) is
empty — unwinds via ctx.Exit(1, internal error), after which no further
statement takes effect and nothing is persisted. -/
def buildFn (env : Env) (approot : String) (app : AppFS) (bpRoot : String)
    (bpFS : String → Option String) (prior : LayerState) (lPath : String)
    (npmInstallCmd : Except String String) : BuildResult × List Action :=
  if (env.lookupVar "GOOGLE_FUNCTION_SOURCE").isSome then
    (BuildResult.err true
      "GOOGLE_FUNCTION_SOURCE is not currently supported for Node.js buildpacks", [])
  else
    match resolveFnFile app with
    | Except.error e => (BuildResult.err false e, [])
    | Except.ok fnFile =>
      if app.fileExists fnFile then
        let checkA := Action.exec ["node", "--check", fnFile] Attribution.user
        match installLegacyWorker bpRoot bpFS prior lPath npmInstallCmd with
        | (Except.error e, acts) =>
            (BuildResult.err false ("installing worker.js: " ++ e), checkA :: acts)
        | (Except.ok l, acts) =>
            let ops0 : List EnvOp :=
              if app.fileExists "node_modules" then
                [⟨EnvOpKind.prepend, "NODE_PATH", ":", approot ++ "/node_modules"⟩]
              else []
            let target := env.getenv "GOOGLE_FUNCTION_TARGET"
            if target = "" then
              (BuildResult.exit 1 "required env var GOOGLE_FUNCTION_TARGET not found",
               checkA :: acts)
            else
              let ops1 := ops0 ++
                [⟨EnvOpKind.default, "X_GOOGLE_FUNCTION_NAME", "", target⟩,
                 ⟨EnvOpKind.default, "X_GOOGLE_ENTRY_POINT", "", target⟩]
              let ops2 := ops1 ++
                (match env.lookupVar "GOOGLE_FUNCTION_SIGNATURE_TYPE" with
                 | some s =>
                     [⟨EnvOpKind.default, "X_GOOGLE_FUNCTION_TRIGGER_TYPE", "",
                       if s = "http" then "HTTP_TRIGGER" else s⟩]
                 | none => [])
              let ops3 := ops2 ++
                [⟨EnvOpKind.default, "X_GOOGLE_CODE_LOCATION", "", approot⟩,
                 ⟨EnvOpKind.default, "X_GOOGLE_NEW_FUNCTION_SIGNATURE", "", "true"⟩,
                 ⟨EnvOpKind.default, "X_GOOGLE_WORKER_PORT", "", "8091"⟩,
                 ⟨EnvOpKind.default, "WORKER_PORT", "", "8091"⟩]
              (BuildResult.ok l ops3 ["node", lPath ++ "/worker.js"], checkA :: acts)
      else (BuildResult.err true (fnFile ++ " does not exist"), [])

/-- Build branch of runBuildpackPhase plus runBuildpackPhaseMain (src
part_001), applied to the modelled build outcome: a build-function error is
wrapped as "build error: ..." and is fatal — log.Fatalf prints
"buildpack error: ..." and the child exits 1; a ctx.Exit unwind terminates
the child with its code, the internal message logged; success exits 0. -/
def runBuildpackPhaseMainBuild (r : BuildResult × List Action) : PhaseRun :=
  match r.1 with
  | BuildResult.err _ msg => ⟨1, "buildpack error: build error: " ++ msg⟩
  | BuildResult.exit code msg => ⟨code, msg⟩
  | BuildResult.ok _ _ _ => ⟨0, ""⟩

/-- Reading a list of files errors whenever one of the listed files is
missing from the filesystem. -/
theorem readFiles_error_of_missing (fs : String → Option String)
    (files : List String) (f : String) (hf : f ∈ files) (hmiss : fs f = none) :
    ∃ e, readFiles fs files = Except.error e := by
  induction files with
  | nil => cases hf
  | cons g rest ih =>
    cases hg : fs g with
    | none => exact ⟨"reading " ++ g, by simp [readFiles, hg]⟩
    | some c =>
      have hfr : f ∈ rest := by
        rcases List.mem_cons.mp hf with h1 | h1
        · subst h1
          rw [hg] at hmiss
          cases hmiss
        · exact h1
      obtain ⟨e, he⟩ := ih hfr
      exact ⟨e, by simp [readFiles, hg, he]⟩

/-- C4: when a listed file is missing, CheckCache returns an error value and
reports neither a hit nor a miss; and installLegacyWorker propagates any
cache-check error to its caller as "checking cache: ..." instead of
proceeding. -/
theorem checkCache_error_on_missing_file (stored : Option CacheSignature)
    (tokens files : List String) (fs : String → Option String) (f : String)
    (hf : f ∈ files) (hmiss : fs f = none) :
    (∃ e, CheckCache stored tokens files fs = Except.error e ∧
      ∀ hit sig, CheckCache stored tokens files fs ≠ Except.ok (hit, sig)) ∧
    (∀ bpRoot bpFS prior lPath cmd e,
      CheckCache prior.meta [envProduction]
        [converterPjsPath bpRoot, converterWjsPath bpRoot] bpFS = Except.error e →
      (installLegacyWorker bpRoot bpFS prior lPath cmd).1 =
        Except.error ("checking cache: " ++ e)) := by
  constructor
  · obtain ⟨e, he⟩ := readFiles_error_of_missing fs files f hf hmiss
    refine ⟨e, ?_, ?_⟩
    · simp [CheckCache, computeSignature, he]
    · intro hit sig
      simp [CheckCache, computeSignature, he]
  · intro bpRoot bpFS prior lPath cmd e hcc
    simp [installLegacyWorker, hcc]

/-- Witness for C4: a filesystem with no files at all errors the cache check
for a one-file list, and the error is neither a hit nor a miss. -/
theorem checkCache_error_on_missing_file_witness :
    (∃ e, CheckCache none ["tok"] ["missing.txt"] (fun _ => none) = Except.error e ∧
      ∀ hit sig, CheckCache none ["tok"] ["missing.txt"] (fun _ => none) ≠
        Except.ok (hit, sig)) ∧
    (∀ bpRoot bpFS prior lPath cmd e,
      CheckCache prior.meta [envProduction]
        [converterPjsPath bpRoot, converterWjsPath bpRoot] bpFS = Except.error e →
      (installLegacyWorker bpRoot bpFS prior lPath cmd).1 =
        Except.error ("checking cache: " ++ e)) :=
  checkCache_error_on_missing_file none ["tok"] ["missing.txt"] (fun _ => none)
    "missing.txt" (by simp) rfl

/-- C5: on a cache hit, installLegacyWorker leaves the layer's existing
contents entirely untouched, performs no clear, no copy and no package
installation (no exec at all and no cache-miss report), and the signature
recorded for persisting equals the prior build's signature unchanged. -/
theorem installLegacyWorker_cache_hit (bpRoot : String)
    (bpFS : String → Option String) (prior : LayerState) (lPath : String)
    (npmInstallCmd : Except String String) (sig : CacheSignature)
    (hhit : CheckCache prior.meta [envProduction]
      [converterPjsPath bpRoot, converterWjsPath bpRoot] bpFS = Except.ok (true, sig)) :
    (installLegacyWorker bpRoot bpFS prior lPath npmInstallCmd).1 =
      Except.ok ⟨prior.contents, some sig⟩ ∧
    prior.meta = some sig ∧
    Action.clearLayerAction ∉ (installLegacyWorker bpRoot bpFS prior lPath npmInstallCmd).2 ∧
    (∀ cmd attr,
      Action.exec cmd attr ∉ (installLegacyWorker bpRoot bpFS prior lPath npmInstallCmd).2) ∧
    Action.cacheMissAction "legacy-worker" ∉
      (installLegacyWorker bpRoot bpFS prior lPath npmInstallCmd).2 := by
  have hmeta : prior.meta = some sig := by
    cases hcomp : computeSignature bpFS [envProduction]
        [converterPjsPath bpRoot, converterWjsPath bpRoot] with
    | error e => simp [CheckCache, hcomp] at hhit
    | ok sig' =>
      simp only [CheckCache, hcomp] at hhit
      have h1 : decide (prior.meta = some sig') = true ∧ sig' = sig := by
        constructor
        · exact congrArg Prod.fst (Except.ok.inj hhit)
        · exact congrArg Prod.snd (Except.ok.inj hhit)
      obtain ⟨hd, hs⟩ := h1
      subst hs
      exact of_decide_eq_true hd
  refine ⟨?_, hmeta, ?_, ?_, ?_⟩
  · simp [installLegacyWorker, hhit]
  · simp [installLegacyWorker, hhit]
  · intro cmd attr
    simp [installLegacyWorker, hhit]
  · simp [installLegacyWorker, hhit]

/-- Buildpack filesystem fixture: the two converter sources exist under the
buildpack root "/bp" and nothing else does. -/
def bpFSHit : String → Option String := fun p =>
  if p = converterPjsPath "/bp" then some "pjs-src"
  else if p = converterWjsPath "/bp" then some "wjs-src"
  else none

/-- Cache signature the fixture filesystem produces for the legacy worker. -/
def sigHit : CacheSignature := ⟨[envProduction], ["pjs-src", "wjs-src"]⟩

/-- Prior layer state fixture whose stored metadata matches the fixture
signature, so the cache check hits. -/
def priorHit : LayerState := ⟨[("old.txt", "old")], some sigHit⟩

/-- Witness for C5: on the fixture hit, the layer contents survive and the
trace holds no clear, no exec and no cache-miss report. -/
theorem installLegacyWorker_cache_hit_witness :
    (installLegacyWorker "/bp" bpFSHit priorHit "/layer" (Except.ok "install")).1 =
      Except.ok ⟨priorHit.contents, some sigHit⟩ ∧
    priorHit.meta = some sigHit ∧
    Action.clearLayerAction ∉
      (installLegacyWorker "/bp" bpFSHit priorHit "/layer" (Except.ok "install")).2 ∧
    (∀ cmd attr, Action.exec cmd attr ∉
      (installLegacyWorker "/bp" bpFSHit priorHit "/layer" (Except.ok "install")).2) ∧
    Action.cacheMissAction "legacy-worker" ∉
      (installLegacyWorker "/bp" bpFSHit priorHit "/layer" (Except.ok "install")).2 :=
  installLegacyWorker_cache_hit "/bp" bpFSHit priorHit "/layer" (Except.ok "install")
    sigHit (by decide)

/-- C7: when the resolved function entry file is missing from the
application root, buildFn returns a UserError whose message names the file,
the phase exits with the generic error code 1 (neither the success code 0
nor the no-match code 100), the message appears verbatim in the captured
output, and the resolution rule is: package.json main when non-empty, else
index.js when it exists, else function.js. -/
theorem buildFn_missing_entry_userError (env : Env) (approot : String)
    (app : AppFS) (bpRoot : String) (bpFS : String → Option String)
    (prior : LayerState) (lPath : String) (npmInstallCmd : Except String String)
    (f : String)
    (hsrc : env.lookupVar "GOOGLE_FUNCTION_SOURCE" = none)
    (hres : resolveFnFile app = Except.ok f)
    (hmiss : app.fileExists f = false) :
    (buildFn env approot app bpRoot bpFS prior lPath npmInstallCmd).1 =
      BuildResult.err true (f ++ " does not exist") ∧
    (runBuildpackPhaseMainBuild
      (buildFn env approot app bpRoot bpFS prior lPath npmInstallCmd)).exitCode = 1 ∧
    (f ++ " does not exist").data <:+:
      (runBuildpackPhaseMainBuild
        (buildFn env approot app bpRoot bpFS prior lPath npmInstallCmd)).output.data ∧
    (1 : Nat) ≠ 0 ∧ (1 : Nat) ≠ 100 ∧
    (∀ p, app.fileExists "package.json" = true → app.pjsParse = Except.ok p →
      p.main ≠ "" → f = p.main) ∧
    (app.fileExists "package.json" = false →
      f = if app.fileExists "index.js" then "index.js" else "function.js") := by
  have hbuild : (buildFn env approot app bpRoot bpFS prior lPath npmInstallCmd).1 =
      BuildResult.err true (f ++ " does not exist") := by
    simp [buildFn, hsrc, hres, hmiss]
  refine ⟨hbuild, ?_, ?_, by decide, by decide, ?_, ?_⟩
  · simp [runBuildpackPhaseMainBuild, hbuild]
  · have hout : (runBuildpackPhaseMainBuild
        (buildFn env approot app bpRoot bpFS prior lPath npmInstallCmd)).output =
        "buildpack error: build error: " ++ (f ++ " does not exist") := by
      simp [runBuildpackPhaseMainBuild, hbuild]
    rw [hout]
    exact ⟨("buildpack error: build error: ").data, [],
      by simp [String.data_append]⟩
  · intro p hpkg hparse hmain
    simp [resolveFnFile, hpkg, hparse, hmain] at hres
    exact hres.symm
  · intro hpkg
    simp [resolveFnFile, hpkg] at hres
    exact hres.symm

/-- Witness for C7: an application with no files at all resolves the entry
file to function.js, which does not exist, so the build fails with the user
error "function.js does not exist" and the phase exits 1 with the message
in the output. -/
theorem buildFn_missing_entry_userError_witness :
    (buildFn [] "/app" ⟨[], Except.error "unused"⟩ "/bp" bpFSHit priorHit "/layer"
      (Except.ok "install")).1 =
      BuildResult.err true ("function.js" ++ " does not exist") ∧
    (runBuildpackPhaseMainBuild (buildFn [] "/app" ⟨[], Except.error "unused"⟩ "/bp"
      bpFSHit priorHit "/layer" (Except.ok "install"))).exitCode = 1 ∧
    ("function.js" ++ " does not exist").data <:+:
      (runBuildpackPhaseMainBuild (buildFn [] "/app" ⟨[], Except.error "unused"⟩ "/bp"
        bpFSHit priorHit "/layer" (Except.ok "install"))).output.data ∧
    (1 : Nat) ≠ 0 ∧ (1 : Nat) ≠ 100 ∧
    (∀ p, AppFS.fileExists ⟨[], Except.error "unused"⟩ "package.json" = true →
      (⟨[], Except.error "unused"⟩ : AppFS).pjsParse = Except.ok p →
      p.main ≠ "" → "function.js" = p.main) ∧
    (AppFS.fileExists ⟨[], Except.error "unused"⟩ "package.json" = false →
      "function.js" =
        if AppFS.fileExists ⟨[], Except.error "unused"⟩ "index.js" then "index.js"
        else "function.js") :=
  buildFn_missing_entry_userError [] "/app" ⟨[], Except.error "unused"⟩ "/bp" bpFSHit
    priorHit "/layer" (Except.ok "install") "function.js" rfl (by decide) (by decide)

/-- C8 counterexample: the claim says Exit fires exactly when
GOOGLE_FUNCTION_TARGET is not found, but with the variable present in the
environment and bound to the empty string — so it IS found — buildFn still
unwinds via Exit(1, internal error), because the code tests os.Getenv for
emptiness, not presence. -/
theorem buildFn_exit_despite_target_found_counterexample :
    Env.lookupVar [("GOOGLE_FUNCTION_TARGET", "")] "GOOGLE_FUNCTION_TARGET" =
      some "" ∧
    (buildFn [("GOOGLE_FUNCTION_TARGET", "")] "/app"
        ⟨["function.js"], Except.error "unused"⟩ "/bp" bpFSHit priorHit "/layer"
        (Except.ok "install")).1 =
      BuildResult.exit 1 "required env var GOOGLE_FUNCTION_TARGET not found" := by
  exact ⟨rfl, by decide⟩

/-- C8 (amended): provided the earlier build stages succeed, buildFn unwinds
via Exit(1, "required env var GOOGLE_FUNCTION_TARGET not found") exactly
when os.Getenv(GOOGLE_FUNCTION_TARGET) is empty — the variable unset or set
to the empty string; on that unwind nothing is persisted (the result is
never a success carrying a layer, environment or web process) and the child
process terminates with the given exit code 1. -/
theorem buildFn_exit_iff_target_empty (env : Env) (approot : String) (app : AppFS)
    (bpRoot : String) (bpFS : String → Option String) (prior : LayerState)
    (lPath : String) (npmInstallCmd : Except String String) (f : String)
    (l : LayerState) (acts : List Action)
    (hsrc : env.lookupVar "GOOGLE_FUNCTION_SOURCE" = none)
    (hres : resolveFnFile app = Except.ok f)
    (hex : app.fileExists f = true)
    (hinst : installLegacyWorker bpRoot bpFS prior lPath npmInstallCmd =
      (Except.ok l, acts)) :
    ((buildFn env approot app bpRoot bpFS prior lPath npmInstallCmd).1 =
        BuildResult.exit 1 "required env var GOOGLE_FUNCTION_TARGET not found" ↔
      env.getenv "GOOGLE_FUNCTION_TARGET" = "") ∧
    (env.getenv "GOOGLE_FUNCTION_TARGET" = "" →
      (∀ l' ops wp,
        (buildFn env approot app bpRoot bpFS prior lPath npmInstallCmd).1 ≠
          BuildResult.ok l' ops wp) ∧
      (runBuildpackPhaseMainBuild
        (buildFn env approot app bpRoot bpFS prior lPath npmInstallCmd)).exitCode = 1) := by
  by_cases hT : env.getenv "GOOGLE_FUNCTION_TARGET" = ""
  · have hbuild : (buildFn env approot app bpRoot bpFS prior lPath npmInstallCmd).1 =
        BuildResult.exit 1 "required env var GOOGLE_FUNCTION_TARGET not found" := by
      simp [buildFn, hsrc, hres, hex, hinst, hT]
    refine ⟨⟨fun _ => hT, fun _ => hbuild⟩, fun _ => ⟨?_, ?_⟩⟩
    · intro l' ops wp hcontra
      rw [hbuild] at hcontra
      cases hcontra
    · simp [runBuildpackPhaseMainBuild, hbuild]
  · have hbuild : (buildFn env approot app bpRoot bpFS prior lPath npmInstallCmd).1 =
        BuildResult.ok l
          ((if app.fileExists "node_modules" then
              [⟨EnvOpKind.prepend, "NODE_PATH", ":", approot ++ "/node_modules"⟩]
            else []) ++
            [⟨EnvOpKind.default, "X_GOOGLE_FUNCTION_NAME", "",
               env.getenv "GOOGLE_FUNCTION_TARGET"⟩,
             ⟨EnvOpKind.default, "X_GOOGLE_ENTRY_POINT", "",
               env.getenv "GOOGLE_FUNCTION_TARGET"⟩] ++
            (match env.lookupVar "GOOGLE_FUNCTION_SIGNATURE_TYPE" with
             | some s =>
                 [⟨EnvOpKind.default, "X_GOOGLE_FUNCTION_TRIGGER_TYPE", "",
                   if s = "http" then "HTTP_TRIGGER" else s⟩]
             | none => []) ++
            [⟨EnvOpKind.default, "X_GOOGLE_CODE_LOCATION", "", approot⟩,
             ⟨EnvOpKind.default, "X_GOOGLE_NEW_FUNCTION_SIGNATURE", "", "true"⟩,
             ⟨EnvOpKind.default, "X_GOOGLE_WORKER_PORT", "", "8091"⟩,
             ⟨EnvOpKind.default, "WORKER_PORT", "", "8091"⟩])
          ["node", lPath ++ "/worker.js"] := by
      simp [buildFn, hsrc, hres, hex, hinst, hT]
    refine ⟨⟨fun hcontra => ?_, fun hcontra => absurd hcontra hT⟩,
      fun hcontra => absurd hcontra hT⟩
    rw [hbuild] at hcontra
    cases hcontra

/-- Witness for C8 (amended), with GOOGLE_FUNCTION_TARGET unset: buildFn
unwinds via Exit(1, internal error) and the phase exits 1 without
persisting a success. -/
theorem buildFn_exit_iff_target_empty_witness :
    ((buildFn [] "/app" ⟨["function.js"], Except.error "unused"⟩ "/bp" bpFSHit
        priorHit "/layer" (Except.ok "install")).1 =
        BuildResult.exit 1 "required env var GOOGLE_FUNCTION_TARGET not found" ↔
      Env.getenv [] "GOOGLE_FUNCTION_TARGET" = "") ∧
    (Env.getenv [] "GOOGLE_FUNCTION_TARGET" = "" →
      (∀ l' ops wp,
        (buildFn [] "/app" ⟨["function.js"], Except.error "unused"⟩ "/bp" bpFSHit
          priorHit "/layer" (Except.ok "install")).1 ≠ BuildResult.ok l' ops wp) ∧
      (runBuildpackPhaseMainBuild
        (buildFn [] "/app" ⟨["function.js"], Except.error "unused"⟩ "/bp" bpFSHit
          priorHit "/layer" (Except.ok "install"))).exitCode = 1) :=
  buildFn_exit_iff_target_empty [] "/app" ⟨["function.js"], Except.error "unused"⟩
    "/bp" bpFSHit priorHit "/layer" (Except.ok "install") "function.js"
    ⟨priorHit.contents, some sigHit⟩
    [Action.logAction "Configuring the legacy Google Cloud Functions worker.js.",
     Action.cacheHitAction "legacy-worker"]
    rfl (by decide) (by decide) (by decide)

end Buildpacks
